import Mathlib

/-!
Verification development for the CTMS action-item backend.

The definitions below are a shallow embedding of the Python source:

* `app/services/sla_engine.py` — Brazilian business-day calendar
  (fixed national holidays plus Easter-relative movable holidays,
  `dateutil.easter` method 3), business-hour arithmetic, SLA deadline
  calculation, and the escalation-level computation;
* `app/api/v1/action_items.py` — the status-transition endpoint
  (`update_action_item_status`) and the general field-edit endpoint
  (`update_action_item`), restricted to the fields that interact with
  the lifecycle (status, `resolved_at`, `verified_at`, `verified_by`,
  `escalation_level`);
* `app/repositories/action_item_repository.py` — the SLA-compliance
  ratio of `get_stats` and the daily burndown series of
  `get_burndown_data`.

Instants are modelled as integer Unix timestamps (seconds, UTC);
calendar dates as integer day numbers relative to 1970-01-01
(proleptic Gregorian).  Python's floor division `//` and modulo `%`
on integers are `Int.fdiv` and `Int.fmod`.
-/

/-- Python `date.weekday()`: Monday = 0, ..., Saturday = 5, Sunday = 6.
Day number 0 is 1970-01-01, a Thursday (weekday 3). -/
def pyWeekday (z : Int) : Int := (z + 3).fmod 7

/-- Days since 1970-01-01 of a proleptic-Gregorian calendar date
(the standard civil-from-date conversion, as Python's `datetime.date`
ordinal arithmetic computes it). -/
def daysFromCivil (y m d : Int) : Int :=
  let y1 := y - (if m ≤ 2 then 1 else 0)
  let era := y1.fdiv 400
  let yoe := y1 - era * 400
  let doy := (153 * (m + (if 2 < m then -3 else 9)) + 2).fdiv 5 + d - 1
  let doe := yoe * 365 + yoe.fdiv 4 - yoe.fdiv 100 + doy
  era * 146097 + doe - 719468

/-- Inverse of `daysFromCivil`: the (year, month, day) of a day number. -/
def civilFromDays (zIn : Int) : Int × Int × Int :=
  let z := zIn + 719468
  let era := z.fdiv 146097
  let doe := z - era * 146097
  let yoe := (doe - doe.fdiv 1460 + doe.fdiv 36524 - doe.fdiv 146096).fdiv 365
  let y := yoe + era * 400
  let doy := doe - (365 * yoe + yoe.fdiv 4 - yoe.fdiv 100)
  let mp := (5 * doy + 2).fdiv 153
  let d := doy - (153 * mp + 2).fdiv 5 + 1
  let m := mp + (if mp < 10 then 3 else -9)
  (y + (if m ≤ 2 then 1 else 0), m, d)

/-- Calendar year of a day number (`d.year` on a Python `date`). -/
def yearOf (z : Int) : Int := (civilFromDays z).1

/-- Western (Gregorian) Easter Sunday as (month, day), the default
method 3 of `dateutil.easter.easter`. -/
def easterMD (y : Int) : Int × Int :=
  let g := y.fmod 19
  let c := y.fdiv 100
  let h := (c - c.fdiv 4 - (8 * c + 13).fdiv 25 + 19 * g + 15).fmod 30
  let i := h - (h.fdiv 28) * (1 - (h.fdiv 28) * ((29 : Int).fdiv (h + 1)) * ((21 - g).fdiv 11))
  let j := (y + y.fdiv 4 + i + 2 - c + c.fdiv 4).fmod 7
  let p := i - j
  let d := 1 + (p + 27 + (p + 6).fdiv 40).fmod 31
  let m := 3 + (p + 26).fdiv 30
  (m, d)

/-- Easter Sunday of a year as a day number. -/
def easterZ (y : Int) : Int :=
  let md := easterMD y
  daysFromCivil y md.1 md.2

-- Sanity checks for the calendar groundwork against known dates.
theorem civil_epoch_check : civilFromDays 0 = (1970, 1, 1) := by decide

theorem civil_roundtrip_check : daysFromCivil 2025 6 6 = 20245 ∧ civilFromDays 20245 = (2025, 6, 6) := by decide

theorem weekday_check : pyWeekday (daysFromCivil 2025 6 6) = 4 ∧ pyWeekday (daysFromCivil 2025 6 16) = 0 := by decide

theorem easter_check_2024 : easterMD 2024 = (3, 31) := by decide

theorem easter_check_2025 : easterMD 2025 = (4, 20) := by decide

theorem easter_check_2019 : easterMD 2019 = (4, 21) := by decide

/-- Brazilian national holidays of a year as day numbers, embedding
`SLAEngine.get_brazilian_holidays`: 8 fixed dates plus 5 Easter-relative
dates (Carnival Monday and Tuesday, Good Friday, Easter Sunday,
Corpus Christi).  The Python set is modelled as a list; only membership
is ever consumed. -/
def get_brazilian_holidays (y : Int) : List Int :=
  let e := easterZ y
  [daysFromCivil y 1 1,
   daysFromCivil y 4 21,
   daysFromCivil y 5 1,
   daysFromCivil y 9 7,
   daysFromCivil y 10 12,
   daysFromCivil y 11 2,
   daysFromCivil y 11 15,
   daysFromCivil y 12 25,
   e - 47,
   e - 46,
   e - 2,
   e,
   e + 60]

/-- Embedding of `SLAEngine.is_business_day`: a date is a business day
unless its weekday is Saturday or Sunday or it is a national holiday of
its calendar year. -/
def is_business_day (z : Int) : Bool :=
  if 5 ≤ pyWeekday z then false
  else decide (z ∉ get_brazilian_holidays (yearOf z))

/-- Fuel-bounded embedding of the first loop of
`SLAEngine.add_business_hours`: advance one calendar day at a time,
counting a day only when it is a business day, until `n` business days
have been consumed.  The Python `while` loop always terminates because
business days recur within any calendar week span; the fuel passed by
`add_business_hours` strictly exceeds the number of day steps the loop
can take on such a calendar. -/
def addBusinessDaysLoop : Nat → Int → Nat → Int
  | _, z, 0 => z
  | 0, z, _ + 1 => z
  | fuel + 1, z, n + 1 =>
    let z1 := z + 1
    if is_business_day z1 then addBusinessDaysLoop fuel z1 n
    else addBusinessDaysLoop fuel z1 (n + 1)

/-- Fuel-bounded embedding of the spillover loop of
`SLAEngine.add_business_hours`: advance to the next business day on or
after `z`. -/
def nextBusinessDayFrom : Nat → Int → Int
  | 0, z => z
  | fuel + 1, z => if is_business_day z then z else nextBusinessDayFrom fuel (z + 1)

/-- A timezone-aware Python `datetime`, as a calendar day number plus
seconds within the day (all instants in this code are UTC). -/
structure PyDateTime where
  z : Int
  sec : Int
deriving Repr, DecidableEq

/-- Python `datetime + timedelta(seconds = s)`, normalizing the
time-of-day into the calendar day. -/
def pdtAddSeconds (dt : PyDateTime) (s : Int) : PyDateTime :=
  let t := dt.sec + s
  { z := dt.z + t.fdiv 86400, sec := t.fmod 86400 }

/-- Embedding of `SLAEngine.add_business_hours`: split `hours` into full
business days and a remainder, walk the calendar consuming the full
days, rebuild the timestamp at the start time-of-day plus the remainder
hours, and on day rollover snap to 08:00 of the next business day. -/
def add_business_hours (start : PyDateTime) (hours : Int) (businessHoursPerDay : Int) : PyDateTime :=
  let fullDays := hours.fdiv businessHoursPerDay
  let remainingHours := hours.fmod businessHoursPerDay
  let currentDate := addBusinessDaysLoop (fullDays.toNat * 7 + 21) start.z fullDays.toNat
  let result := pdtAddSeconds { z := currentDate, sec := start.sec } (remainingHours * 3600)
  if currentDate < result.z then
    let nextDay := nextBusinessDayFrom 366 result.z
    { z := nextDay, sec := 8 * 3600 }
  else result

/-- Severity levels of `app/models/action_item.py`. -/
inductive SeverityLevel where
  | critical
  | major
  | minor
  | info
deriving Repr, DecidableEq

/-- `SLAEngine.DEFAULT_SLA_HOURS` (the `.get` default 80 is unreachable:
the dictionary covers every severity value). -/
def DEFAULT_SLA_HOURS : SeverityLevel → Int
  | .critical => 48
  | .major => 40
  | .minor => 80
  | .info => 120

/-- `SLAEngine.DEFAULT_ESCALATION_HOURS` (the `.get` default 40 is
unreachable: the dictionary covers every severity value). -/
def DEFAULT_ESCALATION_HOURS : SeverityLevel → Int
  | .critical => 24
  | .major => 20
  | .minor => 40
  | .info => 80

/-- Embedding of `SLAEngine.calculate_sla_deadline`.  Python's
`resolution_hours or DEFAULT_SLA_HOURS.get(...)` treats both `None` and
`0` as falsy, so an override of `0` falls back to the severity default.
Timezone normalization is a no-op here (all instants are UTC). -/
def calculate_sla_deadline (created_at : PyDateTime) (severity : SeverityLevel)
    (resolution_hours : Option Int) : PyDateTime :=
  let hours := match resolution_hours with
    | some h => if h = 0 then DEFAULT_SLA_HOURS severity else h
    | none => DEFAULT_SLA_HOURS severity
  add_business_hours created_at hours 8

-- Concrete sanity checks: Friday 2025-06-06 plus 6 business days is
-- Monday 2025-06-16, and no Brazilian holiday falls on 2025-06-06..16.
theorem add_business_days_check :
    addBusinessDaysLoop 63 (daysFromCivil 2025 6 6) 6 = daysFromCivil 2025 6 16 := by decide

theorem no_holiday_in_window_check :
    (List.range 11).all (fun k => decide ((daysFromCivil 2025 6 6 + 1 + (k : Int)) ∉ get_brazilian_holidays 2025)) = true := by decide

/-- Workflow statuses of `app/models/action_item.py`. -/
inductive ActionItemStatus where
  | new
  | in_progress
  | waiting_external
  | done
  | verified
deriving Repr, DecidableEq

/-- The `.value` string of each status member. -/
def statusValue : ActionItemStatus → String
  | .new => "new"
  | .in_progress => "in_progress"
  | .waiting_external => "waiting_external"
  | .done => "done"
  | .verified => "verified"

/-- The lifecycle-relevant portion of the `ActionItem` model: the
status, the timestamps the state machine writes, and the inputs the SLA
engine reads.  Instants are integer Unix timestamps (seconds, UTC).
Descriptive fields (title, description, category, assignee, due date)
carry no lifecycle logic and are omitted. -/
structure Item where
  status : ActionItemStatus
  severity : SeverityLevel
  created_at : Int
  sla_deadline : Option Int
  resolved_at : Option Int
  verified_at : Option Int
  verified_by : Option Nat
  escalation_level : Int
deriving Repr, DecidableEq

instance {ε α : Type} [DecidableEq ε] [DecidableEq α] : DecidableEq (Except ε α) := fun a b =>
  match a, b with
  | .ok x, .ok y => if h : x = y then .isTrue (by rw [h]) else .isFalse (by simp [h])
  | .ok _, .error _ => .isFalse (by simp)
  | .error _, .ok _ => .isFalse (by simp)
  | .error x, .error y => if h : x = y then .isTrue (by rw [h]) else .isFalse (by simp [h])

/-- The `ActionItem.is_open` property: status not in (DONE, VERIFIED). -/
def Item.is_open (item : Item) : Bool :=
  !(item.status = .done ∨ item.status = .verified)

/-- Embedding of `SLAEngine.get_escalation_level`, with the implicit
`datetime.now(timezone.utc)` made an explicit `now` argument.  Python's
`escalation_hours or DEFAULT_ESCALATION_HOURS.get(...)` treats `None`
and `0` as falsy.  `elapsed >= hours` with `elapsed` in fractional
hours is exactly `3600 * hours ≤ now - created_at` in seconds, and
`int(overdue_hours // hours)` is the floor of the overdue seconds over
`3600 * hours`, which is `Int.fdiv` on the exact integer quantities. -/
def get_escalation_level (item : Item) (escalation_hours : Option Int) (now : Int) : Int :=
  match item.sla_deadline with
  | none => 0
  | some deadline =>
    if item.is_open = false then 0
    else
      let hours := match escalation_hours with
        | some h => if h = 0 then DEFAULT_ESCALATION_HOURS item.severity else h
        | none => DEFAULT_ESCALATION_HOURS item.severity
      if deadline < now then 2 + (now - deadline).fdiv (3600 * hours)
      else if 3600 * hours ≤ now - item.created_at then 1
      else 0

/-- The `valid_transitions` table of `update_action_item_status` in
`app/api/v1/action_items.py`. -/
def valid_transitions : ActionItemStatus → List ActionItemStatus
  | .new => [.in_progress, .waiting_external]
  | .in_progress => [.waiting_external, .done, .new]
  | .waiting_external => [.in_progress, .done]
  | .done => [.verified, .in_progress]
  | .verified => []

/-- Embedding of the `PATCH /action-items/\x7bitem_id\x7d/status` endpoint
`update_action_item_status`, for an existing item (the not-found branch
is outside this model).  The audit-trail insert has no effect on the
item and is omitted.  `now` stands for `datetime.now(timezone.utc)`. -/
def update_action_item_status (item : Item) (newStatus : ActionItemStatus)
    (now : Int) (userId : Nat) : Except String Item :=
  if newStatus ∈ valid_transitions item.status then
    let item1 : Item := { item with status := newStatus }
    let item2 : Item :=
      if newStatus = .done then { item1 with resolved_at := some now }
      else if newStatus = .verified then { item1 with verified_at := some now, verified_by := some userId }
      else item1
    Except.ok { item2 with escalation_level := get_escalation_level item2 none now }
  else
    Except.error ("Invalid status transition from " ++ statusValue item.status
      ++ " to " ++ statusValue newStatus)

/-- Embedding of the `PUT /action-items/\x7bitem_id\x7d` endpoint
`update_action_item`, for an existing item, restricted to the `status`
entry of `update_data` (`none` = key absent).  The field loop applies
the new value with no transition validation; the status block then
fires whenever the key is present; finally the escalation level is
recomputed.  Edits of the descriptive fields only set the field and add
an audit entry, never touching the lifecycle, and are omitted. -/
def update_action_item (item : Item) (newStatus : Option ActionItemStatus)
    (now : Int) (userId : Nat) : Item :=
  let item1 : Item := match newStatus with
    | some s => { item with status := s }
    | none => item
  let item2 : Item := match newStatus with
    | some s =>
      if s = .done then { item1 with resolved_at := some now }
      else if s = .verified then { item1 with verified_at := some now, verified_by := some userId }
      else item1
    | none => item1
  { item2 with escalation_level := get_escalation_level item2 none now }

/-- Closed statuses, as `ActionItem.status.in_([DONE, VERIFIED])` in the
repository queries. -/
def isClosedStatus (s : ActionItemStatus) : Bool :=
  s = .done ∨ s = .verified

/-- The `total_resolved_with_sla` filter of
`ActionItemRepository.get_stats`: closed status and a non-null
`sla_deadline`. -/
def closedWithSla (item : Item) : Bool :=
  isClosedStatus item.status && item.sla_deadline.isSome

/-- The `on_time_count` filter of `ActionItemRepository.get_stats`:
closed status, non-null `sla_deadline`, non-null `resolved_at`, and
`resolved_at <= sla_deadline`. -/
def onTimeClosed (item : Item) : Bool :=
  isClosedStatus item.status &&
    match item.sla_deadline, item.resolved_at with
    | some d, some r => r ≤ d
    | _, _ => false

/-- The `sla_compliance` value computed by
`ActionItemRepository.get_stats` over an item population, as an exact
rational: `on_time_count / total_resolved_with_sla * 100` when the
denominator is positive, else `100.0`. -/
def sla_compliance (items : List Item) : ℚ :=
  let totalResolvedWithSla := (items.filter closedWithSla).length
  let onTimeCount := (items.filter onTimeClosed).length
  if 0 < totalResolvedWithSla then (onTimeCount : ℚ) / (totalResolvedWithSla : ℚ) * 100
  else 100

/-- One entry of the series built by
`ActionItemRepository.get_burndown_data`: the calendar day, `open_items`
(the plain difference created-by-day minus resolved-by-day, kept as
`Int` exactly as the source computes it), `closed_items`, and the
running `cumulative_closed`. -/
structure BurndownPoint where
  day : Int
  open_items : Int
  closed_items : Nat
  cumulative_closed : Nat
deriving Repr, DecidableEq

/-- Fuel-bounded embedding of the `while current_date <= now.date()`
loop of `get_burndown_data`.  `z` is the current calendar day,
`endDay` the day of `now`; each iteration counts items created by the
end of the day, items resolved by the end of the day, and items
resolved strictly within the day, then advances one day.  The caller
passes fuel `days + 1`, which is exactly the number of iterations the
loop performs. -/
def burndownLoop (items : List Item) (endDay : Int) : Nat → Int → Nat → List BurndownPoint
  | 0, _, _ => []
  | fuel + 1, z, cum =>
    if z ≤ endDay then
      let dayStart := z * 86400
      let dayEnd := (z + 1) * 86400
      let createdByDay := (items.filter (fun it => decide (it.created_at ≤ dayEnd))).length
      let resolvedByDay := (items.filter (fun it =>
        match it.resolved_at with
        | some r => decide (r ≤ dayEnd)
        | none => false)).length
      let closedToday := (items.filter (fun it =>
        match it.resolved_at with
        | some r => decide (dayStart ≤ r) && decide (r < dayEnd)
        | none => false)).length
      let cum1 := cum + closedToday
      { day := z,
        open_items := (createdByDay : Int) - (resolvedByDay : Int),
        closed_items := closedToday,
        cumulative_closed := cum1 } :: burndownLoop items endDay fuel (z + 1) cum1
    else []

/-- Embedding of `ActionItemRepository.get_burndown_data`: restrict to
items created by `now`, then walk each calendar day from the day of
`now - days` days to the day of `now` inclusive (UTC midnight
boundaries). -/
def get_burndown_data (items : List Item) (days : Nat) (now : Int) : List BurndownPoint :=
  let filtered := items.filter (fun it => decide (it.created_at ≤ now))
  let startT := now - (days : Int) * 86400
  burndownLoop filtered (now.fdiv 86400) (days + 1) (startT.fdiv 86400) 0

/-- A fresh item in the initial status, with no deadline. -/
def itemNew : Item :=
  { status := .new, severity := .minor, created_at := 0, sla_deadline := none,
    resolved_at := none, verified_at := none, verified_by := none, escalation_level := 0 }

/-- C1 counterexample.  The claim's adjacency table excludes
new → waiting_external and in_progress → new, but `update_action_item_status`
accepts both, so the claim that "any other pair is rejected" fails at
these concrete inputs. -/
theorem transition_table_extra_edges_cex :
    update_action_item_status itemNew .waiting_external 0 0 =
      Except.ok { itemNew with status := .waiting_external } ∧
    update_action_item_status { itemNew with status := .in_progress } .new 0 0 =
      Except.ok itemNew := by decide

/-- C1 (amended): TransitionStatus succeeds exactly when (from, to) is
an edge of the code's adjacency table — new → in_progress or
waiting_external; in_progress → waiting_external, done or new;
waiting_external → in_progress or done; done → verified or in_progress;
verified has no outgoing transitions — and any other pair is rejected
with an invalid-transition error naming the attempted source and
target. -/
theorem transition_status_matches_code_adjacency
    (item : Item) (tgt : ActionItemStatus) (now : Int) (user : Nat) :
    ((update_action_item_status item tgt now user).isOk = true ↔
      ((item.status = .new ∧ (tgt = .in_progress ∨ tgt = .waiting_external)) ∨
       (item.status = .in_progress ∧ (tgt = .waiting_external ∨ tgt = .done ∨ tgt = .new)) ∨
       (item.status = .waiting_external ∧ (tgt = .in_progress ∨ tgt = .done)) ∨
       (item.status = .done ∧ (tgt = .verified ∨ tgt = .in_progress)))) ∧
    (update_action_item_status item tgt now user =
        Except.error ("Invalid status transition from " ++ statusValue item.status
          ++ " to " ++ statusValue tgt) ↔
      ¬ ((item.status = .new ∧ (tgt = .in_progress ∨ tgt = .waiting_external)) ∨
         (item.status = .in_progress ∧ (tgt = .waiting_external ∨ tgt = .done ∨ tgt = .new)) ∨
         (item.status = .waiting_external ∧ (tgt = .in_progress ∨ tgt = .done)) ∨
         (item.status = .done ∧ (tgt = .verified ∨ tgt = .in_progress)))) := by
  obtain ⟨st, sev, ca, dl, ra, va, vb, el⟩ := item
  cases st <;> cases tgt <;>
    simp [update_action_item_status, valid_transitions, Except.isOk, Except.toBool]

/-- An item that has reached the terminal verified status. -/
def itemVerified : Item :=
  { status := .verified, severity := .minor, created_at := 0, sla_deadline := none,
    resolved_at := some 50, verified_at := some 60, verified_by := some 1, escalation_level := 0 }

/-- C2 counterexample.  The general field-edit update applies a status
change from verified to new — a pair outside the adjacency table, from
a status with no outgoing transitions — without any invalid-transition
error, so a mutation operation does record a status change outside the
table. -/
theorem field_edit_status_unvalidated_cex :
    (update_action_item itemVerified (some .new) 100 2).status = .new ∧
    ActionItemStatus.new ∉ valid_transitions ActionItemStatus.verified := by decide

/-- C2 (amended): only TransitionStatus validates against the adjacency
table; the general field-edit update (ApplyFieldEdits) applies any
requested status change to an existing item unconditionally, with no
transition check. -/
theorem status_validation_only_in_transition_endpoint
    (item : Item) (s tgt : ActionItemStatus) (now : Int) (user : Nat) :
    ((update_action_item item (some s) now user).status = s) ∧
    ((update_action_item_status item tgt now user).isOk = true ↔
      tgt ∈ valid_transitions item.status) := by
  constructor
  · cases s <;> simp [update_action_item]
  · by_cases h : tgt ∈ valid_transitions item.status <;>
      simp [update_action_item_status, h, Except.isOk, Except.toBool]

/-- An in-progress item whose `resolved_at` is already populated (it
was done once before and was reopened). -/
def itemReopened : Item :=
  { status := .in_progress, severity := .minor, created_at := 0, sla_deadline := none,
    resolved_at := some 100, verified_at := none, verified_by := none, escalation_level := 0 }

/-- C3 counterexample.  Transitioning an item whose `resolved_at` is
already set (100) into done at instant 200 overwrites `resolved_at`
with 200 instead of leaving it unchanged. -/
theorem resolved_at_overwritten_cex :
    itemReopened.resolved_at = some 100 ∧
    update_action_item_status itemReopened .done 200 0 =
      Except.ok { itemReopened with status := .done, resolved_at := some 200 } ∧
    (some (200 : Int)) ≠ some 100 := by decide

/-- C3 (amended): every entry into done sets `resolved_at` to the
current instant unconditionally, overwriting any earlier value, in both
the status-transition endpoint and the general field-edit update;
`resolved_at` therefore records the most recent entry into done, not
the first. -/
theorem entering_done_sets_resolved_at_now :
    (∀ (item : Item) (now : Int) (user : Nat) (r : Item),
      update_action_item_status item .done now user = Except.ok r →
        r.resolved_at = some now) ∧
    (∀ (item : Item) (now : Int) (user : Nat),
      (update_action_item item (some .done) now user).resolved_at = some now) := by
  constructor
  · intro item now user r h
    by_cases hm : ActionItemStatus.done ∈ valid_transitions item.status
    · simp [update_action_item_status, hm] at h
      simp [← h]
    · simp [update_action_item_status, hm] at h
  · intro item now user
    simp [update_action_item]

/-- The result of redoing `itemReopened` at instant 200. -/
def itemRedone : Item := { itemReopened with status := .done, resolved_at := some 200 }

/-- Witness for C3's amended theorem at a concrete input. -/
theorem entering_done_sets_resolved_at_now_witness :
    itemRedone.resolved_at = some 200 ∧
    (update_action_item itemReopened (some .done) 300 0).resolved_at = some 300 :=
  ⟨entering_done_sets_resolved_at_now.1 itemReopened 200 0 itemRedone (by decide),
   entering_done_sets_resolved_at_now.2 itemReopened 300 0⟩

/-- Friday 2025-06-06 at 16:00 UTC, a creation instant in a week with
no Brazilian holidays. -/
def fridayStart : PyDateTime := { z := daysFromCivil 2025 6 6, sec := 16 * 3600 }

/-- C4 counterexample.  For the item created Friday 2025-06-06 16:00
with the critical default of 48 hours at 8 business hours per day, the
computed deadline does not fall on the following Thursday (2025-06-12):
48 hours make 6 full business days, which step over the intervening
weekend onto Monday 2025-06-16. -/
theorem friday_sla_deadline_not_thursday_cex :
    pyWeekday fridayStart.z = 4 ∧
    (calculate_sla_deadline fridayStart .critical none).z ≠ daysFromCivil 2025 6 12 := by decide

/-- C4 (amended): for an item created at Friday 2025-06-06 16:00 with a
48-hour critical SLA and an 8-hour business day, in a span containing
no holidays, the deadline skips the weekend and lands on Monday
2025-06-16 at 16:00 — six business days after creation, not the
following Thursday. -/
theorem friday_sla_deadline_lands_monday :
    calculate_sla_deadline fridayStart .critical none =
      { z := daysFromCivil 2025 6 16, sec := 16 * 3600 } ∧
    pyWeekday fridayStart.z = 4 ∧
    pyWeekday (daysFromCivil 2025 6 16) = 0 ∧
    (List.range 11).all
      (fun k => decide ((fridayStart.z + 1 + (k : Int)) ∉ get_brazilian_holidays 2025)) = true := by
  decide

/-- C5 counterexample.  With a resolution-hours override of 0, the
computed deadline equals the one computed from the critical severity
default (48 hours) and differs from the deadline that zero effective
hours would produce, so the override of 0 is not used as the effective
hours. -/
theorem zero_override_ignored_cex :
    calculate_sla_deadline fridayStart .critical (some 0) =
      calculate_sla_deadline fridayStart .critical none ∧
    calculate_sla_deadline fridayStart .critical none ≠ add_business_hours fridayStart 0 8 := by
  decide

/-- Modelled from the amended claim wording: the effective hours are
the override when it is present and nonzero, else the severity
default. -/
def effectiveResolutionHours (severity : SeverityLevel) (resolution_hours : Option Int) : Int :=
  match resolution_hours with
  | some h => if h = 0 then DEFAULT_SLA_HOURS severity else h
  | none => DEFAULT_SLA_HOURS severity

/-- C5 (amended): for every creation instant, severity and override,
CalculateDeadline delegates to AddBusinessHours with the effective
hours being the override when present and nonzero, and the severity
default when the override is absent or 0. -/
theorem effective_hours_selection
    (created : PyDateTime) (severity : SeverityLevel) (resolution_hours : Option Int) :
    calculate_sla_deadline created severity resolution_hours =
      add_business_hours created (effectiveResolutionHours severity resolution_hours) 8 := by
  cases resolution_hours with
  | none => rfl
  | some h =>
    by_cases h0 : h = 0 <;> simp [calculate_sla_deadline, effectiveResolutionHours, h0]

/-- C7: the SLA compliance percentage of `get_stats` is 100 when there
are no closed items with a deadline, and exactly the on-time count over
the closed-with-deadline count times 100 otherwise; the zero-denominator
case yields the default 100 rather than an error. -/
theorem sla_compliance_formula (items : List Item) :
    sla_compliance items =
      if (items.filter closedWithSla).length = 0 then 100
      else ((items.filter onTimeClosed).length : ℚ) /
        ((items.filter closedWithSla).length : ℚ) * 100 := by
  unfold sla_compliance
  rcases Nat.eq_zero_or_pos (items.filter closedWithSla).length with h | h
  · simp [h]
  · rw [if_pos h, if_neg (by omega)]

/-- C10: any successful status transition into done or verified leaves
the recomputed escalation level at 0, because the escalation
computation returns 0 for an item that is not open. -/
theorem closing_resets_escalation_level
    (item : Item) (tgt : ActionItemStatus) (now : Int) (user : Nat) (r : Item)
    (hok : update_action_item_status item tgt now user = Except.ok r)
    (hclosed : tgt = .done ∨ tgt = .verified) :
    r.escalation_level = 0 := by
  by_cases hm : tgt ∈ valid_transitions item.status
  · rcases hclosed with h | h <;> subst h <;>
      simp [update_action_item_status, hm] at hok <;>
      simp [← hok, get_escalation_level, Item.is_open] <;>
      (split <;> rfl)
  · simp [update_action_item_status, hm] at hok

/-- An overdue done item about to be verified. -/
def itemDoneOverdue : Item :=
  { status := .done, severity := .critical, created_at := 0, sla_deadline := some 10,
    resolved_at := some 3, verified_at := none, verified_by := none, escalation_level := 5 }

/-- The result of verifying `itemDoneOverdue` at instant 20. -/
def itemVerifiedResult : Item :=
  { itemDoneOverdue with
    status := .verified, verified_at := some 20, verified_by := some 3,
    escalation_level := 0 }

/-- Witness for C10 at a concrete input: verifying an overdue done item
resets its escalation level to 0. -/
theorem closing_resets_escalation_level_witness :
    itemVerifiedResult.escalation_level = 0 :=
  closing_resets_escalation_level itemDoneOverdue .verified 20 3 itemVerifiedResult
    (by decide) (Or.inr rfl)

/-- C8: a date fails to be a business day exactly when its weekday is
Saturday or Sunday or it is one of the holiday dates of its calendar
year — the 8 fixed-date national holidays or the 5 Easter-relative
dates (Easter − 47, Easter − 46, Easter − 2, Easter itself,
Easter + 60), which move with the year's Easter computation. -/
theorem business_day_characterization (z : Int) :
    is_business_day z = false ↔
      (pyWeekday z = 5 ∨ pyWeekday z = 6 ∨
        z = daysFromCivil (yearOf z) 1 1 ∨
        z = daysFromCivil (yearOf z) 4 21 ∨
        z = daysFromCivil (yearOf z) 5 1 ∨
        z = daysFromCivil (yearOf z) 9 7 ∨
        z = daysFromCivil (yearOf z) 10 12 ∨
        z = daysFromCivil (yearOf z) 11 2 ∨
        z = daysFromCivil (yearOf z) 11 15 ∨
        z = daysFromCivil (yearOf z) 12 25 ∨
        z = easterZ (yearOf z) - 47 ∨
        z = easterZ (yearOf z) - 46 ∨
        z = easterZ (yearOf z) - 2 ∨
        z = easterZ (yearOf z) ∨
        z = easterZ (yearOf z) + 60) := by
  have h0 : 0 ≤ (z + 3).fmod 7 := Int.fmod_nonneg' _ (by norm_num)
  have h7 : (z + 3).fmod 7 < 7 := Int.fmod_lt_of_pos _ (by norm_num)
  by_cases hw : 5 ≤ pyWeekday z
  · have h56 : pyWeekday z = 5 ∨ pyWeekday z = 6 := by
      unfold pyWeekday at hw ⊢; omega
    simp only [is_business_day, if_pos hw, eq_self_iff_true, true_iff]
    rcases h56 with h | h
    · exact Or.inl h
    · exact Or.inr (Or.inl h)
  · have h5 : ¬ pyWeekday z = 5 := by unfold pyWeekday at hw ⊢; omega
    have h6 : ¬ pyWeekday z = 6 := by unfold pyWeekday at hw ⊢; omega
    simp only [is_business_day, if_neg hw, decide_eq_false_iff_not, not_not,
      get_brazilian_holidays, List.mem_cons, List.not_mem_nil, or_false, h5, h6, false_or]

/-- Closed form of the escalation level for an open item with a
deadline and a nonzero explicit escalation-hours override. -/
theorem get_escalation_level_closed_form
    (item : Item) (hours dl : Int)
    (hdl : item.sla_deadline = some dl) (hopen : item.is_open = true) (hh : 0 < hours)
    (n : Int) :
    get_escalation_level item (some hours) n =
      if dl < n then 2 + (n - dl).fdiv (3600 * hours)
      else if 3600 * hours ≤ n - item.created_at then 1
      else 0 := by
  have hne : hours ≠ 0 := by omega
  simp [get_escalation_level, hdl, hopen, hne]

/-- C6: for a fixed open item with an SLA deadline and fixed positive
escalation hours, the escalation level is monotonically non-decreasing
as `now` advances, and is piecewise 0 before elapsed time since
creation reaches the escalation hours, 1 from that threshold up to the
deadline, and 2 plus the floor of the overdue time over the escalation
period after the deadline — rising by exactly 1 per additional full
period overdue. -/
theorem escalation_level_monotone_piecewise
    (item : Item) (hours dl : Int)
    (hdl : item.sla_deadline = some dl) (hopen : item.is_open = true) (hh : 0 < hours) :
    (∀ n1 n2 : Int, n1 ≤ n2 →
      get_escalation_level item (some hours) n1 ≤ get_escalation_level item (some hours) n2) ∧
    (∀ n : Int, n ≤ dl → n - item.created_at < 3600 * hours →
      get_escalation_level item (some hours) n = 0) ∧
    (∀ n : Int, n ≤ dl → 3600 * hours ≤ n - item.created_at →
      get_escalation_level item (some hours) n = 1) ∧
    (∀ n : Int, dl < n →
      get_escalation_level item (some hours) n = 2 + (n - dl).fdiv (3600 * hours)) := by
  have hHpos : (0 : Int) < 3600 * hours := by positivity
  refine ⟨?_, ?_, ?_, ?_⟩
  · intro n1 n2 h12
    rw [get_escalation_level_closed_form item hours dl hdl hopen hh n1,
      get_escalation_level_closed_form item hours dl hdl hopen hh n2]
    by_cases h1 : dl < n1
    · rw [if_pos h1, if_pos (by omega)]
      have := Int.ediv_le_ediv hHpos (show n1 - dl ≤ n2 - dl by omega)
      rw [Int.fdiv_eq_ediv _ (by omega), Int.fdiv_eq_ediv _ (by omega)]
      omega
    · by_cases h2 : dl < n2
      · rw [if_neg h1, if_pos h2]
        have hnn : 0 ≤ (n2 - dl).fdiv (3600 * hours) :=
          Int.fdiv_nonneg (by omega) (by omega)
        split <;> omega
      · rw [if_neg h1, if_neg h2]
        split <;> split <;> omega
  · intro n hn hlt
    rw [get_escalation_level_closed_form item hours dl hdl hopen hh n,
      if_neg (by omega), if_neg (by omega)]
  · intro n hn hge
    rw [get_escalation_level_closed_form item hours dl hdl hopen hh n,
      if_neg (by omega), if_pos hge]
  · intro n hn
    rw [get_escalation_level_closed_form item hours dl hdl hopen hh n, if_pos hn]

/-- An open critical item created at instant 0 with a deadline two days
later, used to instantiate C6. -/
def itemOpenC6 : Item :=
  { status := .in_progress, severity := .critical, created_at := 0,
    sla_deadline := some 172800, resolved_at := none, verified_at := none,
    verified_by := none, escalation_level := 0 }

/-- Witness for C6 at concrete inputs: with 24-hour escalation periods,
the level is 0 shortly after creation, 1 at the threshold, 2 just past
the deadline, 3 one full period later, and monotone between two sample
instants. -/
theorem escalation_level_monotone_piecewise_witness :
    get_escalation_level itemOpenC6 (some 24) 100 = 0 ∧
    get_escalation_level itemOpenC6 (some 24) 86400 = 1 ∧
    get_escalation_level itemOpenC6 (some 24) 172801 = 2 ∧
    get_escalation_level itemOpenC6 (some 24) 259201 = 3 ∧
    get_escalation_level itemOpenC6 (some 24) 86400 ≤ get_escalation_level itemOpenC6 (some 24) 200000 := by
  have h := escalation_level_monotone_piecewise itemOpenC6 24 172800 rfl (by decide) (by decide)
  refine ⟨h.2.1 100 (by decide) (by decide), h.2.2.1 86400 (by decide) (by decide), ?_, ?_, h.1 86400 200000 (by decide)⟩
  · rw [h.2.2.2 172801 (by decide)]; decide
  · rw [h.2.2.2 259201 (by decide)]; decide

/-- The burndown loop produces one point per calendar day from `z` to
`endDay` inclusive, provided the fuel covers the day count (the caller
always passes enough). -/
theorem burndownLoop_length (items : List Item) (endDay : Int) :
    ∀ (fuel : Nat) (z : Int) (cum : Nat), (endDay + 1 - z).toNat ≤ fuel →
      (burndownLoop items endDay fuel z cum).length = (endDay + 1 - z).toNat := by
  intro fuel
  induction fuel with
  | zero =>
    intro z cum h
    simp only [burndownLoop, List.length_nil]
    omega
  | succ f ih =>
    intro z cum h
    by_cases hz : z ≤ endDay
    · simp only [burndownLoop, if_pos hz, List.length_cons]
      rw [ih (z + 1) _ (by omega)]
      omega
    · simp only [burndownLoop, if_neg hz, List.length_nil]
      omega

/-- The first point the burndown loop emits carries a cumulative count
at least the accumulator passed in. -/
theorem burndownLoop_head_cum (items : List Item) (endDay : Int) (fuel : Nat) (z : Int)
    (cum : Nat) (p : BurndownPoint)
    (hp : (burndownLoop items endDay fuel z cum).head? = some p) :
    cum ≤ p.cumulative_closed := by
  cases fuel with
  | zero => simp [burndownLoop] at hp
  | succ f =>
    by_cases hz : z ≤ endDay
    · simp only [burndownLoop, if_pos hz, List.head?_cons, Option.some.injEq] at hp
      rw [← hp]
      exact Nat.le_add_right _ _
    · simp [burndownLoop, hz] at hp

/-- The cumulative counts along the burndown loop form a non-decreasing
chain. -/
theorem burndownLoop_cum_chain (items : List Item) (endDay : Int) :
    ∀ (fuel : Nat) (z : Int) (cum : Nat),
      List.Chain' (fun a b => a.cumulative_closed ≤ b.cumulative_closed)
        (burndownLoop items endDay fuel z cum) := by
  intro fuel
  induction fuel with
  | zero => intro z cum; simp [burndownLoop]
  | succ f ih =>
    intro z cum
    by_cases hz : z ≤ endDay
    · simp only [burndownLoop, if_pos hz]
      rw [List.chain'_cons']
      refine ⟨fun b hb => ?_, ih (z + 1) _⟩
      exact burndownLoop_head_cum items endDay f (z + 1) _ b hb
    · simp [burndownLoop, hz]

/-- C9: for every window length `days` between 7 and 90 and every item
population, the burndown series has exactly `days + 1` daily points
(inclusive of today), and `cumulative_closed` is non-decreasing across
the series. -/
theorem burndown_length_and_monotone (items : List Item) (days : Nat) (now : Int)
    (hlo : 7 ≤ days) (hhi : days ≤ 90) :
    (get_burndown_data items days now).length = days + 1 ∧
    List.Chain' (fun a b => a.cumulative_closed ≤ b.cumulative_closed)
      (get_burndown_data items days now) := by
  have hstart : (now - (days : Int) * 86400).fdiv 86400 = now.fdiv 86400 - days := by
    rw [show now - (days : Int) * 86400 = now + -(days : Int) * 86400 by ring]
    rw [Int.fdiv_eq_ediv _ (by norm_num), Int.fdiv_eq_ediv _ (by norm_num)]
    rw [Int.add_mul_ediv_right _ _ (by norm_num : (86400 : Int) ≠ 0)]
    ring
  unfold get_burndown_data
  constructor
  · rw [burndownLoop_length _ _ _ _ _ (by rw [hstart]; omega), hstart]
    omega
  · exact burndownLoop_cum_chain _ _ _ _ _

/-- Witness for C9 at a concrete input: an empty population over a
7-day window yields 8 points with a non-decreasing cumulative count. -/
theorem burndown_length_and_monotone_witness :
    (get_burndown_data [] 7 0).length = 7 + 1 ∧
    List.Chain' (fun a b => a.cumulative_closed ≤ b.cumulative_closed)
      (get_burndown_data [] 7 0) :=
  burndown_length_and_monotone [] 7 0 (by decide) (by decide)
